import Mathlib

/-!
Verification of the token-refresh coordination core of the myHealth
frontend API client.

The embedding below models, as executable Lean definitions:

* `storage.ts` — the `TokenStorage` class: an in-memory access-token field
  plus the browser `sessionStorage` and `localStorage` cells it touches
  (`setAccessToken`, `getAccessToken`, `setRefreshToken`, `getRefreshToken`,
  `clearTokens`).

* the axios response interceptor of the API client module
  (`apiClient.interceptors.response.use` together with the module-level
  `isRefreshing` flag and `refreshSubscribers` list, and the helpers
  `subscribeTokenRefresh`, `onTokenRefreshed`, `onTokenRefreshFailed`):
  a single-threaded event-loop state machine.  Each `Event` is one
  atomic synchronous run of the interceptor's error handler up to its
  next suspension point (`Event.errResp`), or the settlement of the
  in-flight renewal call resuming the suspended continuations
  (`Event.refreshSettled`).

* the static axios configurations: the `axios.create` options of
  `apiClient` (timeout 30000, interceptors installed) and the raw
  `axios.post` options of the renewal call (no timeout key, issued on the
  default axios instance which has no interceptors installed).
-/

/-- JavaScript truthiness of a `string | null` value: `null` and the empty
string are falsy, every other string is truthy. -/
def isTruthy : Option String → Bool
  | none => false
  | some s => s != ""

/-- The storage visible to `TokenStorage` (storage.ts): its private
in-memory field `accessToken`, the `sessionStorage` cell under key
`access_token`, and the `localStorage` cell under key `refresh_token`. -/
structure Storage where
  memAccess : Option String
  sessionAccess : Option String
  localRefresh : Option String
deriving DecidableEq, Repr

/-- TokenStorage.setAccessToken: stores the token in the memory field and
in sessionStorage. -/
def setAccessToken (t : String) (s : Storage) : Storage :=
  { s with memAccess := some t, sessionAccess := some t }

/-- TokenStorage.getAccessToken: returns the memory field when truthy;
otherwise reads sessionStorage, caches a truthy result into the memory
field, and returns the read value.  Returns the value together with the
(possibly updated) storage. -/
def getAccessToken (s : Storage) : Option String × Storage :=
  if isTruthy s.memAccess then (s.memAccess, s)
  else
    let token := s.sessionAccess
    if isTruthy token then (token, { s with memAccess := token })
    else (token, s)

/-- TokenStorage.setRefreshToken: stores the token in localStorage. -/
def setRefreshToken (t : String) (s : Storage) : Storage :=
  { s with localRefresh := some t }

/-- TokenStorage.getRefreshToken: reads localStorage; no state change. -/
def getRefreshToken (s : Storage) : Option String :=
  s.localRefresh

/-- TokenStorage.clearTokens: nulls the memory field and removes both
browser-storage cells. -/
def clearTokens (_s : Storage) : Storage :=
  { memAccess := none, sessionAccess := none, localRefresh := none }

/-- An outbound request as the interceptor sees it: an identity and the
`_retry` marker set on its config before a renewal-triggered replay. -/
structure Req where
  id : Nat
  retry : Bool
deriving DecidableEq, Repr

/-- Mark a request config with `_retry = true` (interceptor line
`originalRequest._retry = true`). -/
def markRetry (r : Req) : Req :=
  { r with retry := true }

/-- The module-level state of the API client: the token storage, the
`isRefreshing` flag, the request whose handler owns the in-flight renewal
call, the `refreshSubscribers` waiter list, and two event counters —
renewal calls issued (`axios.post` to `/auth/refresh`) and redirects to
the login surface (`window.location.href = '/login'` assignments). -/
structure ClientState where
  storage : Storage
  isRefreshing : Bool
  leader : Option Req
  waiters : List Req
  renewalCalls : Nat
  redirects : Nat
deriving DecidableEq, Repr

/-- Settlement of the in-flight renewal call: success carries the new
access and refresh tokens of `response.data.session`; failure is the
`refreshError` caught by the interceptor. -/
inductive RefreshResult where
  | success (accessTok refreshTok : String)
  | failure
deriving DecidableEq, Repr

/-- What the interceptor ultimately does with a request: reject the
caller with the original response error, reject it with the renewal
error, or replay the request through the client with the given
Authorization header value. -/
inductive Outcome where
  | rejectedOriginal (r : Req)
  | rejectedRefreshError (r : Req)
  | replayed (r : Req) (authHeader : String)
deriving DecidableEq, Repr

/-- One atomic event of the single-threaded event loop: a response error
arriving for a request (status `none` is a transport failure with no HTTP
response), or the in-flight renewal call settling. -/
inductive Event where
  | errResp (r : Req) (status : Option Nat)
  | refreshSettled (res : RefreshResult)
deriving DecidableEq, Repr

/-- One step of the response interceptor's error path.

`errResp r status` runs the handler synchronously: the 401 guard
(`error.response?.status === 401 && !originalRequest._retry`), then the
missing-refresh-token early exit (clear tokens, redirect, reject with the
original error), then the `isRefreshing` check (append to the waiter
list), else start the single renewal call with `r` as its owner.

`refreshSettled res` resumes the owner's continuation: on success, store
both new tokens, resolve every subscriber with the new access token (each
replays its request with the `Bearer` header) and replay the owner's
request; on failure, reject every subscriber with the renewal error,
clear tokens, redirect to login, and reject the owner.  Either way
`isRefreshing` is reset and the subscriber list is emptied. -/
def step (s : ClientState) : Event → ClientState × List Outcome
  | .errResp r status =>
    if status == some 401 && !r.retry then
      if !(isTruthy (getRefreshToken s.storage)) then
        ({ s with storage := clearTokens s.storage, redirects := s.redirects + 1 },
         [Outcome.rejectedOriginal r])
      else if s.isRefreshing then
        ({ s with waiters := s.waiters ++ [markRetry r] }, [])
      else
        ({ s with isRefreshing := true, leader := some (markRetry r),
                  renewalCalls := s.renewalCalls + 1 }, [])
    else
      (s, [Outcome.rejectedOriginal r])
  | .refreshSettled res =>
    match res with
    | .success tok rtok =>
      ({ s with storage := setRefreshToken rtok (setAccessToken tok s.storage),
                isRefreshing := false, leader := none, waiters := [] },
       s.waiters.map (fun w => Outcome.replayed w ("Bearer " ++ tok))
         ++ (match s.leader with
             | some l => [Outcome.replayed l ("Bearer " ++ tok)]
             | none => []))
    | .failure =>
      ({ s with storage := clearTokens s.storage, isRefreshing := false,
                leader := none, waiters := [], redirects := s.redirects + 1 },
       s.waiters.map Outcome.rejectedRefreshError
         ++ (match s.leader with
             | some l => [Outcome.rejectedRefreshError l]
             | none => []))

/-- Run a list of events, accumulating the outcomes. -/
def run (s : ClientState) : List Event → ClientState × List Outcome
  | [] => (s, [])
  | e :: es =>
    let p := step s e
    let q := run p.1 es
    (q.1, p.2 ++ q.2)

/-- The trace of N concurrent requests all failing with 401. -/
def fresh401s (rs : List Req) : List Event :=
  rs.map (fun r => Event.errResp r (some 401))

/-- Number of refresh operations in flight encoded by a client state: the
`isRefreshing` flag is the only in-flight marker. -/
def refreshOpCount (s : ClientState) : Nat :=
  if s.isRefreshing then 1 else 0

/-- Static options of an axios request or instance, as given in the
source: the Content-Type header, the `timeout` key if present, and
whether the issuing instance is `apiClient` (on which the 401-handling
response interceptor is installed) or the default axios export (on which
no interceptor is installed). -/
structure AxiosConfig where
  contentType : String
  timeout : Option Nat
  interceptorsInstalled : Bool
deriving DecidableEq, Repr

/-- The `axios.create` options of `apiClient`: JSON content type, a
30000 ms timeout, and the request/response interceptors installed on it. -/
def apiClientConfig : AxiosConfig :=
  { contentType := "application/json", timeout := some 30000,
    interceptorsInstalled := true }

/-- The options of the renewal call `axios.post(API_URL + /auth/refresh, ...)`
inside the interceptor: JSON content type, no `timeout` key (so the axios
default of no timeout applies), issued on the default axios instance,
which carries no interceptors. -/
def renewalCallConfig : AxiosConfig :=
  { contentType := "application/json", timeout := none,
    interceptorsInstalled := false }

/-! ## Basic step lemmas -/

/-- A 401 for a fresh request while a renewal is in flight appends the
request to the waiter list and changes nothing else; no outcome is
produced yet (the continuation is suspended). -/
lemma step_401_waiter (s : ClientState) (r : Req)
    (h1 : s.isRefreshing = true)
    (h2 : isTruthy (getRefreshToken s.storage) = true)
    (h3 : r.retry = false) :
    step s (Event.errResp r (some 401)) =
      ({ s with waiters := s.waiters ++ [markRetry r] }, []) := by
  simp [step, h1, h2, h3]

/-- A 401 for a fresh request while no renewal is in flight starts the
single renewal call and records the request as its owner. -/
lemma step_401_leader (s : ClientState) (r : Req)
    (h1 : s.isRefreshing = false)
    (h2 : isTruthy (getRefreshToken s.storage) = true)
    (h3 : r.retry = false) :
    step s (Event.errResp r (some 401)) =
      ({ s with isRefreshing := true, leader := some (markRetry r),
                renewalCalls := s.renewalCalls + 1 }, []) := by
  simp [step, h1, h2, h3]

/-- While a renewal is in flight, a burst of fresh 401s only appends to
the waiter list: no renewal call, no redirect, no storage change, no
outcome. -/
lemma run_fresh401s_refreshing (rs : List Req) (s : ClientState)
    (h1 : s.isRefreshing = true)
    (h2 : isTruthy (getRefreshToken s.storage) = true)
    (hfresh : ∀ r ∈ rs, r.retry = false) :
    run s (fresh401s rs) =
      ({ s with waiters := s.waiters ++ rs.map markRetry }, []) := by
  induction rs generalizing s with
  | nil => simp [run, fresh401s]
  | cons r rs ih =>
    have hr : r.retry = false := hfresh r (List.mem_cons_self r rs)
    have hrest : ∀ x ∈ rs, x.retry = false :=
      fun x hx => hfresh x (List.mem_cons_of_mem r hx)
    have hstep := step_401_waiter s r h1 h2 hr
    have hrun := ih { s with waiters := s.waiters ++ [markRetry r] } h1 h2 hrest
    simp only [fresh401s, List.map_cons] at hrun ⊢
    simp [run, hstep, hrun]

/-- From an idle state with a stored refresh token, a burst of fresh 401s
issues exactly one renewal call, owned by the first request, and queues
every later request as a waiter. -/
lemma run_fresh401s_idle (s : ClientState) (r : Req) (rs : List Req)
    (h1 : s.isRefreshing = false)
    (h2 : isTruthy (getRefreshToken s.storage) = true)
    (hr : r.retry = false)
    (hrest : ∀ x ∈ rs, x.retry = false) :
    run s (fresh401s (r :: rs)) =
      ({ s with isRefreshing := true, leader := some (markRetry r),
                renewalCalls := s.renewalCalls + 1,
                waiters := s.waiters ++ rs.map markRetry }, []) := by
  have hstep := step_401_leader s r h1 h2 hr
  have hrun := run_fresh401s_refreshing rs
    { s with isRefreshing := true, leader := some (markRetry r),
             renewalCalls := s.renewalCalls + 1 } rfl h2 hrest
  simp only [fresh401s, List.map_cons] at hrun ⊢
  simp [run, hstep, hrun]

/-! ## Claim theorems -/

/-- C1: Single-flight invariant.  For N ≥ 1 fresh requests that all
receive a 401 before the renewal settles (a burst of `errResp _ 401`
events from an idle state with a stored refresh token), exactly one
renewal call is made; at every prefix of the burst at most one renewal
call has been added and at most one refresh operation is encoded by the
state; every later 401 is appended to the waiter list instead of starting
a second renewal. -/
theorem single_flight (s : ClientState) (r : Req) (rs : List Req)
    (hidle : s.isRefreshing = false)
    (htok : isTruthy (getRefreshToken s.storage) = true)
    (hfresh : ∀ x ∈ r :: rs, x.retry = false) :
    (run s (fresh401s (r :: rs))).1.renewalCalls = s.renewalCalls + 1 ∧
    (run s (fresh401s (r :: rs))).1.isRefreshing = true ∧
    (run s (fresh401s (r :: rs))).1.waiters = s.waiters ++ rs.map markRetry ∧
    (run s (fresh401s (r :: rs))).1.storage = s.storage ∧
    (∀ k, (run s ((fresh401s (r :: rs)).take k)).1.renewalCalls ≤ s.renewalCalls + 1) ∧
    (∀ t : ClientState, refreshOpCount t ≤ 1) := by
  have hr : r.retry = false := hfresh r (List.mem_cons_self r rs)
  have hrest : ∀ x ∈ rs, x.retry = false :=
    fun x hx => hfresh x (List.mem_cons_of_mem r hx)
  have hmain := run_fresh401s_idle s r rs hidle htok hr hrest
  refine ⟨by rw [hmain], by rw [hmain], by rw [hmain], by rw [hmain], ?_, ?_⟩
  · intro k
    cases k with
    | zero => simp [run]
    | succ k =>
      have htake : (fresh401s (r :: rs)).take (k + 1) = fresh401s (r :: rs.take k) := by
        simp [fresh401s, List.map_take]
      rw [htake, run_fresh401s_idle s r (rs.take k) hidle htok hr
        (fun x hx => hrest x (List.take_subset _ _ hx))]
  · intro t
    unfold refreshOpCount
    split <;> simp

/-- Witness for C1 at a concrete burst of three requests. -/
theorem single_flight_witness :
    (run (⟨⟨some "A", some "A", some "R"⟩, false, none, [], 0, 0⟩ : ClientState)
        (fresh401s [⟨1, false⟩, ⟨2, false⟩, ⟨3, false⟩])).1.renewalCalls = 1 ∧
    (run (⟨⟨some "A", some "A", some "R"⟩, false, none, [], 0, 0⟩ : ClientState)
        (fresh401s [⟨1, false⟩, ⟨2, false⟩, ⟨3, false⟩])).1.waiters =
      [⟨2, true⟩, ⟨3, true⟩] := by
  have h := single_flight ⟨⟨some "A", some "A", some "R"⟩, false, none, [], 0, 0⟩
    ⟨1, false⟩ [⟨2, false⟩, ⟨3, false⟩] rfl (by decide) (by decide)
  exact ⟨h.1, h.2.2.1⟩

/-- C2: Consistent settlement on success.  When the in-flight renewal
settles successfully, the new access token is stored in the token storage
(memory and sessionStorage, with the rotated refresh token in
localStorage), and the produced outcomes are exactly one replay per
queued waiter plus one for the owner, all carrying the same
Authorization header built from the same new token — no two waiters of
the same renewal attempt observe different outcomes. -/
theorem consistent_settlement (s : ClientState) (l : Req) (tok rtok : String)
    (hl : s.leader = some l) :
    (step s (Event.refreshSettled (RefreshResult.success tok rtok))).1.storage.memAccess = some tok ∧
    (step s (Event.refreshSettled (RefreshResult.success tok rtok))).1.storage.sessionAccess = some tok ∧
    (step s (Event.refreshSettled (RefreshResult.success tok rtok))).1.storage.localRefresh = some rtok ∧
    (step s (Event.refreshSettled (RefreshResult.success tok rtok))).2 =
      s.waiters.map (fun w => Outcome.replayed w ("Bearer " ++ tok))
        ++ [Outcome.replayed l ("Bearer " ++ tok)] ∧
    (∀ o ∈ (step s (Event.refreshSettled (RefreshResult.success tok rtok))).2,
      ∃ w, o = Outcome.replayed w ("Bearer " ++ tok)) ∧
    (step s (Event.refreshSettled (RefreshResult.success tok rtok))).1.isRefreshing = false ∧
    (step s (Event.refreshSettled (RefreshResult.success tok rtok))).1.waiters = [] := by
  have houts : (step s (Event.refreshSettled (RefreshResult.success tok rtok))).2 =
      s.waiters.map (fun w => Outcome.replayed w ("Bearer " ++ tok))
        ++ [Outcome.replayed l ("Bearer " ++ tok)] := by
    simp [step, hl]
  refine ⟨by simp [step, setAccessToken, setRefreshToken],
          by simp [step, setAccessToken, setRefreshToken],
          by simp [step, setAccessToken, setRefreshToken],
          houts, ?_, by simp [step], by simp [step]⟩
  intro o ho
  rw [houts] at ho
  rcases List.mem_append.1 ho with h | h
  · rcases List.mem_map.1 h with ⟨w, _, rfl⟩
    exact ⟨w, rfl⟩
  · rw [List.mem_singleton.1 h]
    exact ⟨l, rfl⟩

/-- Witness for C2: two waiters and the owner all replay with the header
built from the same new token T2, which is also stored. -/
theorem consistent_settlement_witness :
    (step (⟨⟨some "A", some "A", some "R"⟩, true, some ⟨1, true⟩,
            [⟨2, true⟩, ⟨3, true⟩], 1, 0⟩ : ClientState)
        (Event.refreshSettled (RefreshResult.success "T2" "R2"))).1.storage.memAccess = some "T2" ∧
    (step (⟨⟨some "A", some "A", some "R"⟩, true, some ⟨1, true⟩,
            [⟨2, true⟩, ⟨3, true⟩], 1, 0⟩ : ClientState)
        (Event.refreshSettled (RefreshResult.success "T2" "R2"))).2 =
      [Outcome.replayed ⟨2, true⟩ ("Bearer " ++ "T2"),
       Outcome.replayed ⟨3, true⟩ ("Bearer " ++ "T2"),
       Outcome.replayed ⟨1, true⟩ ("Bearer " ++ "T2")] := by
  have h := consistent_settlement ⟨⟨some "A", some "A", some "R"⟩, true, some ⟨1, true⟩,
    [⟨2, true⟩, ⟨3, true⟩], 1, 0⟩ ⟨1, true⟩ "T2" "R2" rfl
  exact ⟨h.1, h.2.2.2.1⟩

/-- C3: No double-retry.  A fresh request fails 401, triggers the single
renewal, the renewal succeeds and the request is replayed once (marked
`_retry = true`) with the new token's header; when the replay fails 401
again, the marked request is rejected with that second error and no
second renewal call is made: the renewal-call count over the whole
scenario rises by exactly one. -/
theorem no_double_retry (s : ClientState) (r : Req) (tok rtok : String)
    (hidle : s.isRefreshing = false)
    (hw : s.waiters = [])
    (htok : isTruthy (getRefreshToken s.storage) = true)
    (hr : r.retry = false) :
    (run s [Event.errResp r (some 401),
            Event.refreshSettled (RefreshResult.success tok rtok),
            Event.errResp (markRetry r) (some 401)]).1.renewalCalls = s.renewalCalls + 1 ∧
    (run s [Event.errResp r (some 401),
            Event.refreshSettled (RefreshResult.success tok rtok),
            Event.errResp (markRetry r) (some 401)]).2 =
      [Outcome.replayed (markRetry r) ("Bearer " ++ tok),
       Outcome.rejectedOriginal (markRetry r)] := by
  simp [run, step, hidle, htok, hr, hw, markRetry]

/-- Witness for C3: the scenario at request 7 with new token T2. -/
theorem no_double_retry_witness :
    (run (⟨⟨some "A", some "A", some "R"⟩, false, none, [], 0, 0⟩ : ClientState)
        [Event.errResp ⟨7, false⟩ (some 401),
         Event.refreshSettled (RefreshResult.success "T2" "R2"),
         Event.errResp (markRetry ⟨7, false⟩) (some 401)]).1.renewalCalls = 1 ∧
    (run (⟨⟨some "A", some "A", some "R"⟩, false, none, [], 0, 0⟩ : ClientState)
        [Event.errResp ⟨7, false⟩ (some 401),
         Event.refreshSettled (RefreshResult.success "T2" "R2"),
         Event.errResp (markRetry ⟨7, false⟩) (some 401)]).2 =
      [Outcome.replayed ⟨7, true⟩ ("Bearer " ++ "T2"),
       Outcome.rejectedOriginal ⟨7, true⟩] := by
  have h := no_double_retry ⟨⟨some "A", some "A", some "R"⟩, false, none, [], 0, 0⟩
    ⟨7, false⟩ "T2" "R2" rfl rfl (by decide) rfl
  exact ⟨h.1, h.2⟩

/-- C4: Invalidation on renewal failure.  When the renewal call fails,
every queued waiter is rejected with the renewal error, the owner is
rejected too, the token storage ends completely empty, and exactly one
redirect to the login surface happens regardless of how many waiters
existed. -/
theorem invalidation_on_renewal_failure (s : ClientState) (l : Req)
    (hl : s.leader = some l) :
    (step s (Event.refreshSettled RefreshResult.failure)).1.storage =
      { memAccess := none, sessionAccess := none, localRefresh := none } ∧
    (step s (Event.refreshSettled RefreshResult.failure)).1.redirects = s.redirects + 1 ∧
    (step s (Event.refreshSettled RefreshResult.failure)).2 =
      s.waiters.map Outcome.rejectedRefreshError ++ [Outcome.rejectedRefreshError l] ∧
    (step s (Event.refreshSettled RefreshResult.failure)).1.isRefreshing = false ∧
    (step s (Event.refreshSettled RefreshResult.failure)).1.waiters = [] := by
  simp [step, hl, clearTokens]

/-- Witness for C4: three waiters, one owner; storage ends empty, the
redirect counter rises by exactly one, all four continuations are
rejected with the renewal error. -/
theorem invalidation_on_renewal_failure_witness :
    (step (⟨⟨some "A", some "A", some "R"⟩, true, some ⟨1, true⟩,
            [⟨2, true⟩, ⟨3, true⟩, ⟨4, true⟩], 1, 0⟩ : ClientState)
        (Event.refreshSettled RefreshResult.failure)).1.storage =
      { memAccess := none, sessionAccess := none, localRefresh := none } ∧
    (step (⟨⟨some "A", some "A", some "R"⟩, true, some ⟨1, true⟩,
            [⟨2, true⟩, ⟨3, true⟩, ⟨4, true⟩], 1, 0⟩ : ClientState)
        (Event.refreshSettled RefreshResult.failure)).1.redirects = 1 ∧
    (step (⟨⟨some "A", some "A", some "R"⟩, true, some ⟨1, true⟩,
            [⟨2, true⟩, ⟨3, true⟩, ⟨4, true⟩], 1, 0⟩ : ClientState)
        (Event.refreshSettled RefreshResult.failure)).2 =
      [Outcome.rejectedRefreshError ⟨2, true⟩, Outcome.rejectedRefreshError ⟨3, true⟩,
       Outcome.rejectedRefreshError ⟨4, true⟩, Outcome.rejectedRefreshError ⟨1, true⟩] := by
  have h := invalidation_on_renewal_failure ⟨⟨some "A", some "A", some "R"⟩, true,
    some ⟨1, true⟩, [⟨2, true⟩, ⟨3, true⟩, ⟨4, true⟩], 1, 0⟩ ⟨1, true⟩ rfl
  exact ⟨h.1, h.2.1, h.2.2.1⟩

/-- C5: The renewal call is issued on the default axios instance, on
which the 401-handling interceptor is not installed, and the settlement
of the renewal — success or failure — never issues another renewal call
and always leaves the Refreshing state: no retry-of-retry in any
execution. -/
theorem renewal_not_retried :
    renewalCallConfig.interceptorsInstalled = false ∧
    ∀ (s : ClientState) (res : RefreshResult),
      (step s (Event.refreshSettled res)).1.renewalCalls = s.renewalCalls ∧
      (step s (Event.refreshSettled res)).1.isRefreshing = false := by
  refine ⟨rfl, fun s res => ?_⟩
  cases res <;> simp [step]

/-- C6: Only the 401 signal activates the refresh coordinator: any error
whose status is not 401 — a transport failure with no HTTP response, or
any other status — leaves the whole client state unchanged and is
propagated to the caller as the original error. -/
theorem non_401_propagated (s : ClientState) (r : Req) (status : Option Nat)
    (h : status ≠ some 401) :
    step s (Event.errResp r status) = (s, [Outcome.rejectedOriginal r]) := by
  have hb : (status == some 401) = false := by
    simp [h]
  simp [step, hb]

/-- Witness for C6: a transport failure (no HTTP status) and a 500
response both pass through untouched on a concrete refreshing state. -/
theorem non_401_propagated_witness :
    step (⟨⟨some "A", some "A", some "R"⟩, true, some ⟨1, true⟩, [⟨2, true⟩], 1, 0⟩ : ClientState)
        (Event.errResp ⟨5, false⟩ none) =
      ((⟨⟨some "A", some "A", some "R"⟩, true, some ⟨1, true⟩, [⟨2, true⟩], 1, 0⟩ : ClientState),
       [Outcome.rejectedOriginal ⟨5, false⟩]) ∧
    step (⟨⟨some "A", some "A", some "R"⟩, true, some ⟨1, true⟩, [⟨2, true⟩], 1, 0⟩ : ClientState)
        (Event.errResp ⟨6, false⟩ (some 500)) =
      ((⟨⟨some "A", some "A", some "R"⟩, true, some ⟨1, true⟩, [⟨2, true⟩], 1, 0⟩ : ClientState),
       [Outcome.rejectedOriginal ⟨6, false⟩]) := by
  exact ⟨non_401_propagated _ ⟨5, false⟩ none (by decide),
         non_401_propagated _ ⟨6, false⟩ (some 500) (by decide)⟩

/-- C10: A 401 for a fresh request while no refresh token is stored makes
no renewal call: the handler clears all tokens, performs exactly one
redirect to the login surface, and rejects the caller with the original
error — and because this early exit precedes the `isRefreshing` check,
the request is never queued as a waiter (the waiter list, the refreshing
flag and the renewal-call count are untouched even while a renewal is in
flight). -/
theorem no_refresh_token_401 (s : ClientState) (r : Req)
    (htok : isTruthy (getRefreshToken s.storage) = false)
    (hr : r.retry = false) :
    (step s (Event.errResp r (some 401))).1.storage =
      { memAccess := none, sessionAccess := none, localRefresh := none } ∧
    (step s (Event.errResp r (some 401))).1.redirects = s.redirects + 1 ∧
    (step s (Event.errResp r (some 401))).2 = [Outcome.rejectedOriginal r] ∧
    (step s (Event.errResp r (some 401))).1.renewalCalls = s.renewalCalls ∧
    (step s (Event.errResp r (some 401))).1.waiters = s.waiters ∧
    (step s (Event.errResp r (some 401))).1.isRefreshing = s.isRefreshing := by
  simp [step, htok, hr, clearTokens]

/-- Witness for C10 at a state whose renewal is in flight: the request is
still not queued, no second renewal call is made, tokens are cleared and
one redirect happens. -/
theorem no_refresh_token_401_witness :
    (step (⟨⟨some "A", some "A", none⟩, true, some ⟨1, true⟩, [⟨2, true⟩], 1, 0⟩ : ClientState)
        (Event.errResp ⟨9, false⟩ (some 401))).1.storage =
      { memAccess := none, sessionAccess := none, localRefresh := none } ∧
    (step (⟨⟨some "A", some "A", none⟩, true, some ⟨1, true⟩, [⟨2, true⟩], 1, 0⟩ : ClientState)
        (Event.errResp ⟨9, false⟩ (some 401))).1.redirects = 1 ∧
    (step (⟨⟨some "A", some "A", none⟩, true, some ⟨1, true⟩, [⟨2, true⟩], 1, 0⟩ : ClientState)
        (Event.errResp ⟨9, false⟩ (some 401))).1.renewalCalls = 1 ∧
    (step (⟨⟨some "A", some "A", none⟩, true, some ⟨1, true⟩, [⟨2, true⟩], 1, 0⟩ : ClientState)
        (Event.errResp ⟨9, false⟩ (some 401))).1.waiters = [⟨2, true⟩] := by
  have h := no_refresh_token_401
    ⟨⟨some "A", some "A", none⟩, true, some ⟨1, true⟩, [⟨2, true⟩], 1, 0⟩
    ⟨9, false⟩ rfl rfl
  exact ⟨h.1, h.2.1, h.2.2.2.1, h.2.2.2.2.1⟩

/-- C7 counterexample: the raw `axios.post` options of the renewal call
carry no timeout key at all (while the claim asserts a timeout is imposed
on the renewal call). -/
theorem renewal_timeout_counterexample :
    renewalCallConfig.timeout = none := rfl

/-- C7 (amended): no timeout is imposed on the renewal call itself — its
options carry no timeout key, so the axios default of no timeout applies;
only requests issued through `apiClient` get the instance-level 30000 ms
timeout.  A renewal that never settles therefore strands the waiters. -/
theorem renewal_timeout_amended :
    renewalCallConfig.timeout = none ∧ apiClientConfig.timeout = some 30000 := by
  exact ⟨rfl, rfl⟩

/-- C8 counterexample: storing a credential writes browser-persistent
storage — `setAccessToken` writes the sessionStorage cell and
`setRefreshToken` writes the localStorage cell (while the claim asserts
all durable storage is left unchanged). -/
theorem credential_persisted_counterexample :
    (setAccessToken "tok" ⟨none, none, none⟩).sessionAccess = some "tok" ∧
    (setRefreshToken "rtok" ⟨none, none, none⟩).localRefresh = some "rtok" := by
  exact ⟨rfl, rfl⟩

/-- C8 (amended): the credential is deliberately mirrored to browser
storage: `setAccessToken` stores the token in the in-memory field and in
sessionStorage, `setRefreshToken` stores the refresh token in
localStorage, and `clearTokens` empties the memory field and both
browser-storage cells. -/
theorem credential_storage_amended (s : Storage) (t : String) :
    setAccessToken t s = { s with memAccess := some t, sessionAccess := some t } ∧
    setRefreshToken t s = { s with localRefresh := some t } ∧
    clearTokens s = { memAccess := none, sessionAccess := none, localRefresh := none } := by
  exact ⟨rfl, rfl, rfl⟩

/-- C9 counterexample: `getAccessToken` is not state-preserving — on a
storage whose memory field is empty but whose sessionStorage holds a
token, it caches the token into the memory field, so the holder's state
changes. -/
theorem get_access_token_counterexample :
    (getAccessToken ⟨none, some "tok", none⟩).2 ≠
      (⟨none, some "tok", none⟩ : Storage) := by
  decide

/-- C9 (amended): `getAccessToken` returns the current credential (the
memory field when truthy, else the sessionStorage value) and leaves both
browser-storage cells unchanged; it may cache the sessionStorage value
into the memory field, and it is idempotent — a second call returns the
same value and changes nothing further. -/
theorem get_access_token_amended (s : Storage) :
    ((getAccessToken s).2).sessionAccess = s.sessionAccess ∧
    ((getAccessToken s).2).localRefresh = s.localRefresh ∧
    getAccessToken (getAccessToken s).2 = ((getAccessToken s).1, (getAccessToken s).2) := by
  by_cases h1 : isTruthy s.memAccess = true
  · simp [getAccessToken, h1]
  · simp only [Bool.not_eq_true] at h1
    by_cases h2 : isTruthy s.sessionAccess = true
    · simp [getAccessToken, h1, h2]
    · simp only [Bool.not_eq_true] at h2
      simp [getAccessToken, h1, h2]
